import Mathlib

/-
Verification of the ACME certificate revocation handler
(builtin/logical/pki/path_acme_revoke.go).

The handler and its two authorization strategies are embedded as pure Lean
functions over an explicit environment of collaborators (storage reads, the
account store, the CRL config cache, and the revocation executor).  Machinery
outside this file's source (base64 decoding, X.509 parsing, the storage
backend) is abstracted as functions in the environment, so every theorem
quantifies over all collaborator behaviours.  The mutex acquire / release and
the call to revokeCert are recorded in an event trace, so ordering claims
about the locked write region are statable.
-/

namespace Pki

/-- Sentinel error kinds, mirroring the typed ACME errors the Go handler
attaches with fmt.Errorf and a w-verb (ErrMalformed, ErrBadRevocationReason,
ErrAlreadyRevoked, ErrUnauthorized, ErrServerInternal).  storageErr models an
opaque error value produced by a storage collaborator, distinguishable from
all sentinels (errors.Is on it matches no ACME sentinel). -/
inductive ErrKind where
  | malformed
  | badRevocationReason
  | alreadyRevoked
  | unauthorized
  | serverInternal
  | storageErr (code : Nat)
  deriving DecidableEq

/-- An error value as the handler returns it: the static context message of
the fmt.Errorf format string, plus the sentinel kind reachable through the
wrapped error chain. -/
structure HErr where
  msg : String
  kind : ErrKind
  deriving DecidableEq

/-- A dynamically typed JSON field value as it arrives in the handler's
data map (map from string to empty interface in Go).  str models a Go
string, num a numeric value (a float64 in Go; every finite float64 is
exactly a rational number, so the value is carried as a rational), other
any value of a different dynamic type. -/
inductive FieldVal where
  | str (s : String)
  | num (n : ℚ)
  | other
  deriving DecidableEq

/-- Go's conversion int(x) for a float64 x: the fractional part is
discarded, i.e. the value is truncated toward zero.  On a rational this is
T-division of the numerator by the denominator (Int.tdiv rounds toward
zero, and the denominator is positive). -/
def truncToInt (q : ℚ) : Int := Int.tdiv q.num q.den

/-- The rational one half, written with explicit numerator and
denominator. -/
def oneHalf : ℚ := ⟨1, 2, by decide, by decide⟩

/-- The two request fields the handler reads from its data map:
certificate and reason.  none models an absent key. -/
structure ReqData where
  certificate : Option FieldVal
  reason : Option FieldVal
  deriving DecidableEq

/-- A parsed X.509 certificate, restricted to the attributes the handler
consumes: the serial integer, the raw DER bytes, the NotAfter instant
(modelled as a Nat time point) and the embedded public key (opaque key
identity). -/
structure Cert where
  serialNum : Nat
  raw : List Nat
  notAfter : Nat
  pubKey : Nat
  deriving DecidableEq

/-- Modelled from the spec: serialFromCert derives the normalized serial
identifier (canonical hex/colon form of the serial integer, an injective
image of it); the handler only ever uses it as a lookup key, so it is
modelled as the serial integer itself. -/
def serialFromCert (cert : Cert) : Nat := cert.serialNum

/-- A stored certificate record as returned by fetchCertBySerial: its
Value holds the canonical raw DER bytes. -/
structure CertEntry where
  Value : List Nat
  deriving DecidableEq

/-- The JWS key material behind userCtx.Key.Key: either a value usable as a
crypto.Signer (carrying its public key identity) or a value whose dynamic
type assertion to crypto.Signer fails. -/
inductive JWSKey where
  | signer (pubKey : Nat)
  | nonSigner
  deriving DecidableEq

/-- The pre-authenticated caller identity context (jwsCtx): whether an ACME
account exists for the caller, its key identifier, and the request signing
key. -/
structure JwsCtx where
  Existing : Bool
  Kid : Nat
  Key : JWSKey
  deriving DecidableEq

/-- ACME account statuses. -/
inductive AccountStatus where
  | valid
  | deactivated
  | revoked
  | pending
  deriving DecidableEq

/-- The constant the handler compares account status against. -/
def AccountStatusValid : AccountStatus := AccountStatus.valid

/-- An ACME account record, restricted to the Status attribute the handler
reads. -/
structure Account where
  Status : AccountStatus
  deriving DecidableEq

/-- An issued-certificate index entry for a (kid, serial) pair. -/
structure IssuedEntry where
  id : Nat
  deriving DecidableEq

/-- The cached CRL configuration, opaque to the handler. -/
structure CRLConfig where
  id : Nat
  deriving DecidableEq

/-- A successful logical response, opaque to the handler. -/
structure Response where
  id : Nat
  deriving DecidableEq

/-- Observable events of the revocation write region: acquiring the global
revokeStorageLock, invoking revokeCert (the only storage write of this
code), and releasing the lock. -/
inductive Event where
  | lockAcquire
  | callRevokeCert
  | lockRelease
  deriving DecidableEq

/-- The trace produced when the handler enters the locked write region:
lock, write, deferred unlock. -/
def lockedWriteTrace : List Event :=
  [Event.lockAcquire, Event.callRevokeCert, Event.lockRelease]

/-- The environment of collaborators consumed by the handler.  Each field
is one of the external interfaces the Go code calls; errors whose payload
the handler discards (formatting them with a v-verb only) carry Unit, the
account lookup error is propagated so it carries an ErrKind, and revokeCert
returns the handler's own result type. -/
structure Env where
  now : Nat
  b64DecodeRawURL : String → Except Unit (List Nat)
  parseCertificate : List Nat → Except Unit Cert
  getConfigWithUpdate : Except Unit CRLConfig
  fetchCertBySerial : String → Nat → Except Unit (Option CertEntry)
  LoadAccount : Nat → Except ErrKind Account
  GetIssuedCert : Nat → Nat → Except Unit (Option IssuedEntry)
  revokeCert : CRLConfig → Cert → Except HErr Response

/-- The certs storage namespace the handler reads. -/
def certsNS : String := "certs/"

/-- The revoked storage namespace the handler reads. -/
def revokedNS : String := "revoked/"

/-- Modelled from the spec: validatePrivateKeyMatchesCert (defined outside
this source file) verifies that the signer's public key matches the public
key embedded in the presented certificate. -/
def validatePrivateKeyMatchesCert (pubKey : Nat) (cert : Cert) : Bool :=
  pubKey == cert.pubKey

def errMissingCertField : HErr :=
  { msg := "bad request was lacking required field certificate", kind := ErrKind.malformed }

def errCertFieldType : HErr :=
  { msg := "invalid type for field certificate", kind := ErrKind.malformed }

def errB64Decode : HErr :=
  { msg := "failed to base64 decode certificate", kind := ErrKind.malformed }

def errParseCert : HErr :=
  { msg := "failed to parse certificate", kind := ErrKind.malformed }

def errReasonType : HErr :=
  { msg := "invalid type for field reason", kind := ErrKind.malformed }

def errBadReason : HErr :=
  { msg := "Vault does not support revocation reasons", kind := ErrKind.badRevocationReason }

def errExpired : HErr :=
  { msg := "refusing to revoke expired certificate", kind := ErrKind.malformed }

def errConfig : HErr :=
  { msg := "unable to revoke certificate: failed reading revocation config", kind := ErrKind.serverInternal }

def errCertEntryRead : HErr :=
  { msg := "unable to revoke certificate: err reading global cert entry", kind := ErrKind.serverInternal }

def errNoCertEntry : HErr :=
  { msg := "unable to revoke certificate: no global cert entry found", kind := ErrKind.serverInternal }

def errCertMismatch : HErr :=
  { msg := "unable to revoke certificate: supplied certificate does not match the stored value", kind := ErrKind.malformed }

def errRevEntryRead : HErr :=
  { msg := "unable to revoke certificate: err reading revocation entry", kind := ErrKind.serverInternal }

def errAlreadyRevoked : HErr :=
  { msg := "unable to revoke certificate: already revoked", kind := ErrKind.alreadyRevoked }

def errKeyNotSigner : HErr :=
  { msg := "unable to revoke certificate: unable to parse JWS key", kind := ErrKind.malformed }

def errPoPFailed : HErr :=
  { msg := "unable to revoke certificate: unable to verify proof of possession", kind := ErrKind.malformed }

/-- The account lookup failure: the handler wraps the propagated storage
error with context only, without attaching any ACME sentinel. -/
def errAccountLookup (e : ErrKind) : HErr :=
  { msg := "failed to lookup account", kind := e }

def errAccountNotValid : HErr :=
  { msg := "account is not presently valid", kind := ErrKind.unauthorized }

def errNoIssuedEntry : HErr :=
  { msg := "unable to revoke certificate: no issuance entry for this account and serial", kind := ErrKind.malformed }

/-- The result of a handler invocation: the returned response or error,
paired with the trace of lock / write events it performed. -/
abbrev HandlerResult := Except HErr Response × List Event

deriving instance DecidableEq for Except

/-- The reason-field validation block of acmeRevocationHandler (source
lines 66 to 76): an absent field passes; a present field must be numeric
(float64 in Go, asserted and then converted with int(reason), which
truncates toward zero) and the truncated value must be 0; a non-numeric
type is Malformed and a value truncating to nonzero is
BadRevocationReason. -/
def checkReason (rawReason : Option FieldVal) : Except HErr Unit :=
  match rawReason with
  | none => Except.ok ()
  | some (FieldVal.num reason) =>
      if truncToInt reason ≠ 0 then Except.error errBadReason else Except.ok ()
  | some _ => Except.error errReasonType

/-- acmeRevocationByPoP: the proof-of-possession authorization strategy.
The JWS key must assert to a crypto.Signer, and its public key must match
the certificate's; then the handler takes the revocation lock, calls
revokeCert, and releases the lock (deferred unlock), returning revokeCert's
result. -/
def acmeRevocationByPoP (b : Env) (userCtx : JwsCtx) (cert : Cert)
    (config : CRLConfig) : HandlerResult :=
  match userCtx.Key with
  | JWSKey.nonSigner => (Except.error errKeyNotSigner, [])
  | JWSKey.signer pubKey =>
      if validatePrivateKeyMatchesCert pubKey cert then
        (b.revokeCert config cert, lockedWriteTrace)
      else
        (Except.error errPoPFailed, [])

/-- acmeRevocationByAccount: the account authorization strategy.  The
account is loaded by kid (a lookup error is propagated, wrapped with
context only); its status must equal AccountStatusValid; the issued
certificate index must hold an entry for (kid, serial) (a lookup error or
an absent entry are both Malformed); then the locked revokeCert call is
made as in the PoP path. -/
def acmeRevocationByAccount (b : Env) (userCtx : JwsCtx) (cert : Cert)
    (config : CRLConfig) : HandlerResult :=
  match b.LoadAccount userCtx.Kid with
  | Except.error e => (Except.error (errAccountLookup e), [])
  | Except.ok account =>
      if account.Status ≠ AccountStatusValid then
        (Except.error errAccountNotValid, [])
      else
        match b.GetIssuedCert userCtx.Kid (serialFromCert cert) with
        | Except.error _ => (Except.error errNoIssuedEntry, [])
        | Except.ok none => (Except.error errNoIssuedEntry, [])
        | Except.ok (some _) => (b.revokeCert config cert, lockedWriteTrace)

/-- acmeRevocationHandler: the revocation entry point.  In source order:
the certificate field is required, must be a string, must base64 decode
(raw URL alphabet) and must parse as X.509; the reason field is validated
by checkReason; an expired certificate (NotAfter strictly before now) is
rejected; the CRL config is fetched; the certs namespace must hold an
entry for the serial whose bytes equal the presented raw DER; the revoked
namespace must hold no entry for the serial; finally the request is
dispatched on userCtx.Existing to the PoP or the account strategy. -/
def acmeRevocationHandler (b : Env) (userCtx : JwsCtx) (data : ReqData) :
    HandlerResult :=
  match data.certificate with
  | none => (Except.error errMissingCertField, [])
  | some (FieldVal.num _) => (Except.error errCertFieldType, [])
  | some FieldVal.other => (Except.error errCertFieldType, [])
  | some (FieldVal.str certBase64) =>
    match b.b64DecodeRawURL certBase64 with
    | Except.error _ => (Except.error errB64Decode, [])
    | Except.ok certBytes =>
      match b.parseCertificate certBytes with
      | Except.error _ => (Except.error errParseCert, [])
      | Except.ok cert =>
        match checkReason data.reason with
        | Except.error e => (Except.error e, [])
        | Except.ok _ =>
          if cert.notAfter < b.now then
            (Except.error errExpired, [])
          else
            match b.getConfigWithUpdate with
            | Except.error _ => (Except.error errConfig, [])
            | Except.ok config =>
              match b.fetchCertBySerial certsNS (serialFromCert cert) with
              | Except.error _ => (Except.error errCertEntryRead, [])
              | Except.ok none => (Except.error errNoCertEntry, [])
              | Except.ok (some certEntry) =>
                if certEntry.Value ≠ cert.raw then
                  (Except.error errCertMismatch, [])
                else
                  match b.fetchCertBySerial revokedNS (serialFromCert cert) with
                  | Except.error _ => (Except.error errRevEntryRead, [])
                  | Except.ok (some _) => (Except.error errAlreadyRevoked, [])
                  | Except.ok none =>
                    if userCtx.Existing then
                      acmeRevocationByAccount b userCtx cert config
                    else
                      acmeRevocationByPoP b userCtx cert config

/-- A handler invocation proceeds to the locked write exactly when its
trace is the lock / write / unlock trace. -/
def proceedsToLockedWrite (res : HandlerResult) : Prop :=
  res.2 = lockedWriteTrace

/-! Concrete fixtures used by the witness and counterexample theorems. -/

/-- A sample certificate: serial 5, raw DER bytes [1, 2, 3], NotAfter at
time 100, embedded public key 9. -/
def certW : Cert := { serialNum := 5, raw := [1, 2, 3], notAfter := 100, pubKey := 9 }

/-- The stored certs entry matching certW. -/
def entryW : CertEntry := { Value := [1, 2, 3] }

/-- A stored certs entry whose bytes differ from certW's raw bytes. -/
def entryBad : CertEntry := { Value := [9, 9] }

/-- The base64url text carried by the sample requests. -/
def sampleB64 : String := "AQID"

/-- A sample request carrying the certificate field and no reason field. -/
def dataW : ReqData := { certificate := some (FieldVal.str sampleB64), reason := none }

/-- A sample CRL configuration. -/
def cfgW : CRLConfig := { id := 0 }

/-- A sample successful response. -/
def respW : Response := { id := 0 }

/-- A sample account in valid status. -/
def acctW : Account := { Status := AccountStatus.valid }

/-- An account-path caller context: an existing account with kid 1 whose
key is a signer for public key 9. -/
def ctxW : JwsCtx := { Existing := true, Kid := 1, Key := JWSKey.signer 9 }

/-- A PoP-path caller context: no existing account, signer for public key
9 (certW's embedded key). -/
def ctxPoP : JwsCtx := { Existing := false, Kid := 0, Key := JWSKey.signer 9 }

/-- The base environment: time 50, decode and parse yield certW, config
available, certs namespace holds entryW for every serial, revoked
namespace empty, account acctW, issuance index populated, revokeCert
succeeds with respW. -/
def baseEnv : Env :=
  { now := 50
    b64DecodeRawURL := fun _ => Except.ok [1, 2, 3]
    parseCertificate := fun _ => Except.ok certW
    getConfigWithUpdate := Except.ok cfgW
    fetchCertBySerial := fun ns _ =>
      if ns = certsNS then Except.ok (some entryW) else Except.ok none
    LoadAccount := fun _ => Except.ok acctW
    GetIssuedCert := fun _ _ => Except.ok (some { id := 0 })
    revokeCert := fun _ _ => Except.ok respW }

/-- Like baseEnv but with a revocation record already present for every
serial (the revoked namespace lookup returns an entry). -/
def envRev : Env := { baseEnv with fetchCertBySerial := fun _ _ => Except.ok (some entryW) }

/-- Like baseEnv but with an empty certs namespace. -/
def env7 : Env := { baseEnv with fetchCertBySerial := fun _ _ => Except.ok none }

/-- Like baseEnv but the stored certs entry has bytes different from the
presented certificate. -/
def env8 : Env :=
  { baseEnv with fetchCertBySerial := fun ns _ =>
      if ns = certsNS then Except.ok (some entryBad) else Except.ok none }

/-- Like baseEnv but the account lookup fails with an opaque storage
error. -/
def env9 : Env := { baseEnv with LoadAccount := fun _ => Except.error (ErrKind.storageErr 7) }

/-- Like baseEnv but with the current time exactly equal to certW's
NotAfter instant. -/
def envEq : Env := { baseEnv with now := certW.notAfter }

/-- Like baseEnv but with the current time strictly past certW's NotAfter
instant. -/
def envExp : Env := { baseEnv with now := 200 }

/-- A request supplying the unsupported revocation reason 1. -/
def dataBadReason : ReqData :=
  { certificate := some (FieldVal.str sampleB64), reason := some (FieldVal.num 1) }

/-- A request supplying the fractional numeric reason one half, which is
nonzero yet truncates to 0 under the Go int conversion. -/
def dataHalfReason : ReqData :=
  { certificate := some (FieldVal.str sampleB64), reason := some (FieldVal.num oneHalf) }

/-- If a request passes field validation (certificate present, a string,
decoded and parsed), the reason check, the expiry check, the config fetch,
the certs lookup with matching bytes, and the revoked lookup finds no
record, then the handler dispatches on Existing to one of the two
authorization strategies. -/
theorem handler_reaches_authz (b : Env) (u : JwsCtx) (data : ReqData)
    (s : String) (bs : List Nat) (cert : Cert) (config : CRLConfig) (entry : CertEntry)
    (h1 : data.certificate = some (FieldVal.str s))
    (h2 : b.b64DecodeRawURL s = Except.ok bs)
    (h3 : b.parseCertificate bs = Except.ok cert)
    (h4 : checkReason data.reason = Except.ok ())
    (h5 : ¬ cert.notAfter < b.now)
    (h6 : b.getConfigWithUpdate = Except.ok config)
    (h7 : b.fetchCertBySerial certsNS (serialFromCert cert) = Except.ok (some entry))
    (h8 : entry.Value = cert.raw)
    (h9 : b.fetchCertBySerial revokedNS (serialFromCert cert) = Except.ok none) :
    acmeRevocationHandler b u data =
      if u.Existing then acmeRevocationByAccount b u cert config
      else acmeRevocationByPoP b u cert config := by
  simp only [acmeRevocationHandler, h1, h2, h3, h4, h5, h6, h7, h8, h9, ne_eq,
    not_false_eq_true, if_false, if_neg]
  simp [h5]

end Pki

namespace Pki

/-- C1: for every account-path revocation request (Existing = true) that
reaches authorization, given that the account loads successfully and the
issued-certificate index lookup succeeds, the request proceeds to the
locked write iff the account status is valid and an index entry exists for
(kid, serial); a non-valid status fails with the Unauthorized error, and
with a valid status an absent index entry fails with the Malformed
error. -/
theorem account_path_revocation_authorization (b : Env) (u : JwsCtx) (data : ReqData)
    (s : String) (bs : List Nat) (cert : Cert) (config : CRLConfig) (entry : CertEntry)
    (account : Account) (oEntry : Option IssuedEntry)
    (h1 : data.certificate = some (FieldVal.str s))
    (h2 : b.b64DecodeRawURL s = Except.ok bs)
    (h3 : b.parseCertificate bs = Except.ok cert)
    (h4 : checkReason data.reason = Except.ok ())
    (h5 : ¬ cert.notAfter < b.now)
    (h6 : b.getConfigWithUpdate = Except.ok config)
    (h7 : b.fetchCertBySerial certsNS (serialFromCert cert) = Except.ok (some entry))
    (h8 : entry.Value = cert.raw)
    (h9 : b.fetchCertBySerial revokedNS (serialFromCert cert) = Except.ok none)
    (hEx : u.Existing = true)
    (hacct : b.LoadAccount u.Kid = Except.ok account)
    (hidx : b.GetIssuedCert u.Kid (serialFromCert cert) = Except.ok oEntry) :
    (proceedsToLockedWrite (acmeRevocationHandler b u data) ↔
        (account.Status = AccountStatusValid ∧ oEntry.isSome = true)) ∧
    (account.Status ≠ AccountStatusValid →
        (acmeRevocationHandler b u data).1 = Except.error errAccountNotValid) ∧
    (account.Status = AccountStatusValid → oEntry = none →
        (acmeRevocationHandler b u data).1 = Except.error errNoIssuedEntry) := by
  have hA : acmeRevocationHandler b u data = acmeRevocationByAccount b u cert config := by
    rw [handler_reaches_authz b u data s bs cert config entry h1 h2 h3 h4 h5 h6 h7 h8 h9, hEx]
    simp
  rw [hA]
  unfold acmeRevocationByAccount
  rw [hacct]
  by_cases hst : account.Status = AccountStatusValid
  · simp only [hst, ne_eq, not_true_eq_false, if_false, hidx]
    cases oEntry <;> simp [proceedsToLockedWrite, lockedWriteTrace]
  · simp [hst, proceedsToLockedWrite, lockedWriteTrace]

/-- Witness for C1: in the base environment an account-path request with a
valid account and a present index entry proceeds to the locked write. -/
theorem account_path_revocation_authorization_witness :
    proceedsToLockedWrite (acmeRevocationHandler baseEnv ctxW dataW) :=
  (account_path_revocation_authorization baseEnv ctxW dataW sampleB64 [1, 2, 3] certW cfgW
      entryW acctW (some { id := 0 }) rfl rfl rfl rfl (by decide) rfl (by decide) rfl
      (by decide) rfl rfl rfl).1.mpr (by decide)

/-- C2: for every proof-of-possession-path revocation request
(Existing = false) that reaches authorization, the request proceeds to the
locked write iff the JWS key is usable as a signer whose public key matches
the public key embedded in the certificate; a non-signer key fails with
the Malformed error errKeyNotSigner, and a signer with a mismatched public
key fails with the Malformed error errPoPFailed. -/
theorem pop_path_revocation_authorization (b : Env) (u : JwsCtx) (data : ReqData)
    (s : String) (bs : List Nat) (cert : Cert) (config : CRLConfig) (entry : CertEntry)
    (h1 : data.certificate = some (FieldVal.str s))
    (h2 : b.b64DecodeRawURL s = Except.ok bs)
    (h3 : b.parseCertificate bs = Except.ok cert)
    (h4 : checkReason data.reason = Except.ok ())
    (h5 : ¬ cert.notAfter < b.now)
    (h6 : b.getConfigWithUpdate = Except.ok config)
    (h7 : b.fetchCertBySerial certsNS (serialFromCert cert) = Except.ok (some entry))
    (h8 : entry.Value = cert.raw)
    (h9 : b.fetchCertBySerial revokedNS (serialFromCert cert) = Except.ok none)
    (hEx : u.Existing = false) :
    (proceedsToLockedWrite (acmeRevocationHandler b u data) ↔
        ∃ pk, u.Key = JWSKey.signer pk ∧ validatePrivateKeyMatchesCert pk cert = true) ∧
    (u.Key = JWSKey.nonSigner →
        (acmeRevocationHandler b u data).1 = Except.error errKeyNotSigner) ∧
    (∀ pk, u.Key = JWSKey.signer pk → validatePrivateKeyMatchesCert pk cert = false →
        (acmeRevocationHandler b u data).1 = Except.error errPoPFailed) := by
  have hA : acmeRevocationHandler b u data = acmeRevocationByPoP b u cert config := by
    rw [handler_reaches_authz b u data s bs cert config entry h1 h2 h3 h4 h5 h6 h7 h8 h9, hEx]
    simp
  rw [hA]
  unfold acmeRevocationByPoP
  cases hk : u.Key with
  | nonSigner => simp [hk, proceedsToLockedWrite, lockedWriteTrace]
  | signer pk =>
      by_cases hv : validatePrivateKeyMatchesCert pk cert = true
      · simp [hk, hv, proceedsToLockedWrite]
      · simp [hk, hv, proceedsToLockedWrite, lockedWriteTrace]

/-- Witness for C2: in the base environment a PoP-path request whose key
signs for the certificate's public key proceeds to the locked write. -/
theorem pop_path_revocation_authorization_witness :
    proceedsToLockedWrite (acmeRevocationHandler baseEnv ctxPoP dataW) :=
  (pop_path_revocation_authorization baseEnv ctxPoP dataW sampleB64 [1, 2, 3] certW cfgW
      entryW rfl rfl rfl rfl (by decide) rfl (by decide) rfl (by decide) rfl).1.mpr
    ⟨9, rfl, by decide⟩

/-- C3: a revocation request whose serial already has a record in the
revoked namespace fails with the AlreadyRevoked error and performs no
write: the event trace is empty, so the lock is never taken, revokeCert is
never invoked, and no stored record is touched. -/
theorem already_revoked_rejected_without_write (b : Env) (u : JwsCtx) (data : ReqData)
    (s : String) (bs : List Nat) (cert : Cert) (config : CRLConfig)
    (entry revEntry : CertEntry)
    (h1 : data.certificate = some (FieldVal.str s))
    (h2 : b.b64DecodeRawURL s = Except.ok bs)
    (h3 : b.parseCertificate bs = Except.ok cert)
    (h4 : checkReason data.reason = Except.ok ())
    (h5 : ¬ cert.notAfter < b.now)
    (h6 : b.getConfigWithUpdate = Except.ok config)
    (h7 : b.fetchCertBySerial certsNS (serialFromCert cert) = Except.ok (some entry))
    (h8 : entry.Value = cert.raw)
    (hrev : b.fetchCertBySerial revokedNS (serialFromCert cert) = Except.ok (some revEntry)) :
    (acmeRevocationHandler b u data).1 = Except.error errAlreadyRevoked ∧
    (acmeRevocationHandler b u data).2 = [] ∧
    Event.callRevokeCert ∉ (acmeRevocationHandler b u data).2 := by
  have hH : acmeRevocationHandler b u data = (Except.error errAlreadyRevoked, []) := by
    simp only [acmeRevocationHandler, h1, h2, h3, h4, h6, h7, h8, hrev, ne_eq]
    simp [h5]
  simp [hH]

/-- Witness for C3: with a revocation record present the base request is
rejected with AlreadyRevoked. -/
theorem already_revoked_rejected_without_write_witness :
    (acmeRevocationHandler envRev ctxW dataW).1 = Except.error errAlreadyRevoked :=
  (already_revoked_rejected_without_write envRev ctxW dataW sampleB64 [1, 2, 3] certW cfgW
      entryW entryW rfl rfl rfl rfl (by decide) rfl (by decide) rfl (by decide)).1

/-- C4: for every environment and input, either the handler returns an
error with an empty event trace (every validation or authorization failure
returns before the lock is acquired), or its trace is exactly lock
acquire, revokeCert call, lock release and its result is the revokeCert
result: revokeCert runs only under the lock after all checks succeed, and
the lock is released on every exit path, including when revokeCert itself
returns an error. -/
theorem no_write_without_lock_and_lock_released (b : Env) (userCtx : JwsCtx)
    (data : ReqData) :
    ((acmeRevocationHandler b userCtx data).2 = [] ∧
      ∃ e, (acmeRevocationHandler b userCtx data).1 = Except.error e) ∨
    ((acmeRevocationHandler b userCtx data).2 = lockedWriteTrace ∧
      ∃ config cert, (acmeRevocationHandler b userCtx data).1 = b.revokeCert config cert) := by
  unfold acmeRevocationHandler acmeRevocationByAccount acmeRevocationByPoP checkReason
  repeat' split
  all_goals
    first
      | exact Or.inl ⟨rfl, ⟨_, rfl⟩⟩
      | exact Or.inr ⟨rfl, ⟨_, _, rfl⟩⟩

/-- C5 counterexample: with the current time exactly equal to the
certificate's NotAfter the handler does not fail with the expired-
certificate error; it accepts the request and completes the locked write,
refuting the claim that NotAfter equal to the current time is rejected. -/
theorem expiry_boundary_counterexample :
    certW.notAfter = envEq.now ∧
    acmeRevocationHandler envEq ctxW dataW = (Except.ok respW, lockedWriteTrace) := by
  decide

/-- C5 (amended): a parsed certificate whose NotAfter is strictly earlier
than the current time is rejected with the Malformed error refusing to
revoke expired certificate, with an empty trace and independently of every
storage collaborator (so before any storage lookup); a certificate whose
NotAfter is equal to or later than the current time never produces that
error. -/
theorem expired_certificate_rejected_strictly_before_now (b : Env) (u : JwsCtx)
    (data : ReqData) (s : String) (bs : List Nat) (cert : Cert)
    (h1 : data.certificate = some (FieldVal.str s))
    (h2 : b.b64DecodeRawURL s = Except.ok bs)
    (h3 : b.parseCertificate bs = Except.ok cert)
    (h4 : checkReason data.reason = Except.ok ()) :
    (cert.notAfter < b.now →
        acmeRevocationHandler b u data = (Except.error errExpired, [])) ∧
    (¬ cert.notAfter < b.now →
        acmeRevocationHandler b u data ≠ (Except.error errExpired, [])) := by
  constructor
  · intro hlt
    simp [acmeRevocationHandler, h1, h2, h3, h4, hlt]
  · intro hge
    simp only [acmeRevocationHandler, acmeRevocationByAccount, acmeRevocationByPoP, h1, h2,
      h3, h4, if_neg hge]
    repeat' split
    all_goals
      first
        | decide
        | simp [lockedWriteTrace, errAccountLookup, errExpired, HErr.mk.injEq]

/-- Witness for C5 (amended): in an environment whose clock is past certW's
NotAfter, the base request is rejected as expired. -/
theorem expired_certificate_rejected_strictly_before_now_witness :
    acmeRevocationHandler envExp ctxW dataW = (Except.error errExpired, []) :=
  (expired_certificate_rejected_strictly_before_now envExp ctxW dataW sampleB64 [1, 2, 3]
      certW rfl rfl rfl rfl).1 (by decide)

/-- C6 counterexample: the numeric reason value one half is not 0, yet the
request is accepted and the revocation completes: the Go int conversion in
the check truncates one half to 0, refuting the claim that for a numeric
reason only the value 0 is accepted and any other value fails with
BadRevocationReason. -/
theorem fractional_reason_accepted_counterexample :
    dataHalfReason.reason = some (FieldVal.num oneHalf) ∧
    oneHalf ≠ 0 ∧
    acmeRevocationHandler baseEnv ctxW dataHalfReason = (Except.ok respW, lockedWriteTrace) := by
  decide

/-- C6 (amended): for every request whose certificate field is well formed,
a reason field of non-numeric type fails with the Malformed error
errReasonType; a numeric reason whose truncation toward zero (the Go int
conversion) is nonzero fails with the BadRevocationReason error; a numeric
reason truncating to 0 passes the reason check and can never produce
either reason error; and an absent reason field passes the reason check
and can never produce either reason error. -/
theorem reason_field_validation (b : Env) (u : JwsCtx) (data : ReqData)
    (s : String) (bs : List Nat) (cert : Cert)
    (h1 : data.certificate = some (FieldVal.str s))
    (h2 : b.b64DecodeRawURL s = Except.ok bs)
    (h3 : b.parseCertificate bs = Except.ok cert) :
    (∀ v, data.reason = some v → (∀ n, v ≠ FieldVal.num n) →
        acmeRevocationHandler b u data = (Except.error errReasonType, [])) ∧
    (∀ n, data.reason = some (FieldVal.num n) → truncToInt n ≠ 0 →
        acmeRevocationHandler b u data = (Except.error errBadReason, [])) ∧
    (∀ n, data.reason = some (FieldVal.num n) → truncToInt n = 0 →
        acmeRevocationHandler b u data ≠ (Except.error errReasonType, []) ∧
        acmeRevocationHandler b u data ≠ (Except.error errBadReason, [])) ∧
    checkReason none = Except.ok () ∧
    (data.reason = none →
        acmeRevocationHandler b u data ≠ (Except.error errReasonType, []) ∧
        acmeRevocationHandler b u data ≠ (Except.error errBadReason, [])) := by
  refine ⟨?_, ?_, ?_, rfl, ?_⟩
  · intro v hv hnum
    cases v with
    | num n => exact absurd rfl (hnum n)
    | str s2 => simp [acmeRevocationHandler, h1, h2, h3, hv, checkReason]
    | other => simp [acmeRevocationHandler, h1, h2, h3, hv, checkReason]
  · intro n hv hn
    simp [acmeRevocationHandler, h1, h2, h3, hv, checkReason, hn]
  · intro n hv ht
    have hcr : checkReason data.reason = Except.ok () := by
      simp [checkReason, hv, ht]
    constructor <;>
    · simp only [acmeRevocationHandler, acmeRevocationByAccount, acmeRevocationByPoP, h1, h2,
        h3, hcr]
      repeat' split
      all_goals
        first
          | decide
          | simp [lockedWriteTrace, errAccountLookup, errReasonType, errBadReason, HErr.mk.injEq]
  · intro h0
    constructor <;>
    · simp only [acmeRevocationHandler, acmeRevocationByAccount, acmeRevocationByPoP, h1, h2,
        h3, h0, checkReason]
      repeat' split
      all_goals
        first
          | decide
          | simp [lockedWriteTrace, errAccountLookup, errReasonType, errBadReason, HErr.mk.injEq]

/-- Witness for C6 (amended): supplying reason 1, which truncates to the
nonzero integer 1, is rejected with BadRevocationReason. -/
theorem reason_field_validation_witness :
    acmeRevocationHandler baseEnv ctxW dataBadReason = (Except.error errBadReason, []) :=
  (reason_field_validation baseEnv ctxW dataBadReason sampleB64 [1, 2, 3] certW
      rfl rfl rfl).2.1 1 rfl (by decide)

/-- C7: a validated, unexpired request whose derived serial has no entry
in the certs namespace fails with the ServerInternal error errNoCertEntry
and an empty trace: it never succeeds silently. -/
theorem missing_certs_entry_is_server_internal (b : Env) (u : JwsCtx) (data : ReqData)
    (s : String) (bs : List Nat) (cert : Cert) (config : CRLConfig)
    (h1 : data.certificate = some (FieldVal.str s))
    (h2 : b.b64DecodeRawURL s = Except.ok bs)
    (h3 : b.parseCertificate bs = Except.ok cert)
    (h4 : checkReason data.reason = Except.ok ())
    (h5 : ¬ cert.notAfter < b.now)
    (h6 : b.getConfigWithUpdate = Except.ok config)
    (h7 : b.fetchCertBySerial certsNS (serialFromCert cert) = Except.ok none) :
    acmeRevocationHandler b u data = (Except.error errNoCertEntry, []) ∧
    errNoCertEntry.kind = ErrKind.serverInternal := by
  constructor
  · simp only [acmeRevocationHandler, h1, h2, h3, h4, h6, h7]
    simp [h5]
  · rfl

/-- Witness for C7: with an empty certs namespace the base request fails
with the missing-entry ServerInternal error. -/
theorem missing_certs_entry_is_server_internal_witness :
    acmeRevocationHandler env7 ctxW dataW = (Except.error errNoCertEntry, []) :=
  (missing_certs_entry_is_server_internal env7 ctxW dataW sampleB64 [1, 2, 3] certW cfgW
      rfl rfl rfl rfl (by decide) rfl (by decide)).1

/-- C8: when the stored certs entry for the derived serial holds bytes
different from the presented certificate's raw DER, the handler fails with
the Malformed error errCertMismatch and an empty trace; the conclusion
holds for arbitrary behaviour of the revoked-namespace lookup, the account
store and the revocation executor, so the handler never proceeds to the
already-revoked check, authorization or the write. -/
theorem stored_certificate_mismatch_rejected (b : Env) (u : JwsCtx) (data : ReqData)
    (s : String) (bs : List Nat) (cert : Cert) (config : CRLConfig) (entry : CertEntry)
    (h1 : data.certificate = some (FieldVal.str s))
    (h2 : b.b64DecodeRawURL s = Except.ok bs)
    (h3 : b.parseCertificate bs = Except.ok cert)
    (h4 : checkReason data.reason = Except.ok ())
    (h5 : ¬ cert.notAfter < b.now)
    (h6 : b.getConfigWithUpdate = Except.ok config)
    (h7 : b.fetchCertBySerial certsNS (serialFromCert cert) = Except.ok (some entry))
    (h8 : entry.Value ≠ cert.raw) :
    acmeRevocationHandler b u data = (Except.error errCertMismatch, []) := by
  simp only [acmeRevocationHandler, h1, h2, h3, h4, h6, h7]
  simp [h5, h8]

/-- Witness for C8: with a stored entry whose bytes differ from certW's the
base request is rejected with the mismatch Malformed error. -/
theorem stored_certificate_mismatch_rejected_witness :
    acmeRevocationHandler env8 ctxW dataW = (Except.error errCertMismatch, []) :=
  stored_certificate_mismatch_rejected env8 ctxW dataW sampleB64 [1, 2, 3] certW cfgW
    entryBad rfl rfl rfl rfl (by decide) rfl (by decide) (by decide)

/-- C9 counterexample: when LoadAccount fails with an opaque storage error
the handler's returned error carries that storage error's kind, which is
not the ServerInternal sentinel, refuting the claim that account lookup
storage errors surface as a server-internal error. -/
theorem account_lookup_error_counterexample :
    env9.LoadAccount ctxW.Kid = Except.error (ErrKind.storageErr 7) ∧
    acmeRevocationHandler env9 ctxW dataW =
      (Except.error (errAccountLookup (ErrKind.storageErr 7)), []) ∧
    (errAccountLookup (ErrKind.storageErr 7)).kind ≠ ErrKind.serverInternal := by
  decide

/-- C9 (amended): on the account path every storage error returned by
LoadAccount makes the handler fail before the lock with that same error
wrapped with the context message failed to lookup account; the error kind
is the storage error's own kind and no ServerInternal sentinel is
attached. -/
theorem account_lookup_error_propagated_with_context (b : Env) (u : JwsCtx) (data : ReqData)
    (s : String) (bs : List Nat) (cert : Cert) (config : CRLConfig) (entry : CertEntry)
    (e : ErrKind)
    (h1 : data.certificate = some (FieldVal.str s))
    (h2 : b.b64DecodeRawURL s = Except.ok bs)
    (h3 : b.parseCertificate bs = Except.ok cert)
    (h4 : checkReason data.reason = Except.ok ())
    (h5 : ¬ cert.notAfter < b.now)
    (h6 : b.getConfigWithUpdate = Except.ok config)
    (h7 : b.fetchCertBySerial certsNS (serialFromCert cert) = Except.ok (some entry))
    (h8 : entry.Value = cert.raw)
    (h9 : b.fetchCertBySerial revokedNS (serialFromCert cert) = Except.ok none)
    (hEx : u.Existing = true)
    (hacct : b.LoadAccount u.Kid = Except.error e) :
    acmeRevocationHandler b u data = (Except.error (errAccountLookup e), []) := by
  rw [handler_reaches_authz b u data s bs cert config entry h1 h2 h3 h4 h5 h6 h7 h8 h9, hEx]
  simp [acmeRevocationByAccount, hacct]

/-- Witness for C9 (amended): the concrete failing account lookup yields
the context-wrapped storage error. -/
theorem account_lookup_error_propagated_with_context_witness :
    acmeRevocationHandler env9 ctxW dataW =
      (Except.error (errAccountLookup (ErrKind.storageErr 7)), []) :=
  account_lookup_error_propagated_with_context env9 ctxW dataW sampleB64 [1, 2, 3] certW
    cfgW entryW (ErrKind.storageErr 7) rfl rfl rfl rfl (by decide) rfl (by decide) rfl
    (by decide) rfl rfl

/-- C10: the already-revoked check runs before either authorization
strategy is dispatched: when the presented bytes match the stored entry
and a revocation record exists for the serial, the handler returns the
AlreadyRevoked error for every caller identity context whatsoever, whether
or not the caller would pass proof-of-possession or account
authorization. -/
theorem already_revoked_checked_before_authorization (b : Env) (data : ReqData)
    (s : String) (bs : List Nat) (cert : Cert) (config : CRLConfig)
    (entry revEntry : CertEntry)
    (h1 : data.certificate = some (FieldVal.str s))
    (h2 : b.b64DecodeRawURL s = Except.ok bs)
    (h3 : b.parseCertificate bs = Except.ok cert)
    (h4 : checkReason data.reason = Except.ok ())
    (h5 : ¬ cert.notAfter < b.now)
    (h6 : b.getConfigWithUpdate = Except.ok config)
    (h7 : b.fetchCertBySerial certsNS (serialFromCert cert) = Except.ok (some entry))
    (h8 : entry.Value = cert.raw)
    (hrev : b.fetchCertBySerial revokedNS (serialFromCert cert) = Except.ok (some revEntry)) :
    ∀ u : JwsCtx, acmeRevocationHandler b u data = (Except.error errAlreadyRevoked, []) := by
  intro u
  simp only [acmeRevocationHandler, h1, h2, h3, h4, h6, h7, h8, hrev, ne_eq]
  simp [h5]

/-- Witness for C10: a caller with no account at all (PoP context) is told
AlreadyRevoked when a revocation record exists. -/
theorem already_revoked_checked_before_authorization_witness :
    acmeRevocationHandler envRev ctxPoP dataW = (Except.error errAlreadyRevoked, []) :=
  already_revoked_checked_before_authorization envRev dataW sampleB64 [1, 2, 3] certW cfgW
    entryW entryW rfl rfl rfl rfl (by decide) rfl (by decide) rfl (by decide) ctxPoP

end Pki
